import Mathlib

/-!
Verification of `household/make_json.py` (Open Power System Data, Household
Datapackage).  The script assembles a Frictionless datapackage manifest from
in-memory tables with a multi-level column header, static YAML lookup tables
(project website, region, building type, feed description), and version /
changelog strings, then serializes the document to `datapackage.json`.

Shallow embedding: a pandas DataFrame is represented by the list of its
column-header tuples (only `df.columns` is read by the script); a Python dict
built by `{k: v for k, v in zip(headers, col)}` is an association list with
last-binding-wins lookup; YAML templates are embedded as the structured values
`yaml.load` produces from them; exceptions (`KeyError` from failed lookups,
`IndexError` from `col[0]` on an empty tuple, `TypeError` from iterating the
`None` that `yaml.load('')` returns) become an `Except` error type.  The
iteration order of Python's `set` used for source deduplication is modelled by
an explicit `shuffle` parameter ranging over permutation-producing functions.
Values interpolated into the YAML templates are taken to be plain YAML
scalars, so instantiating a template and parsing it is construction of the
corresponding structured value.
-/

set_option autoImplicit false

namespace HouseholdData

/-- One column of a DataFrame: the tuple of its multi-level header values. -/
abbrev Col := List String

/-- A Python dict built from string pairs; later bindings shadow earlier ones
(as in `{k: v for k, v in zip(headers, col)}` with duplicate keys). -/
abbrev PyDict := List (String × String)

/-- Dict lookup, last binding wins; `none` models a `KeyError`. -/
def pyGet (d : PyDict) (k : String) : Option String :=
  match d with
  | [] => none
  | (k', v) :: rest =>
    match pyGet rest k with
    | some v' => some v'
    | none => if k' = k then some v else none

/-- The Python exceptions `make_json` can raise. -/
inductive MJError where
  /-- `KeyError(k)`: dict subscript or `str.format` field missing. -/
  | keyError (k : String) : MJError
  /-- `TypeError`: iterating the `None` returned by `yaml.load('')`. -/
  | typeError : MJError
  /-- `IndexError`: `col[0]` on an empty header tuple. -/
  | indexError : MJError
deriving DecidableEq, Repr

/-- Dict subscript `d[k]`: raises `KeyError(k)` when the key is absent. -/
def pyGetE (d : PyDict) (k : String) : Except MJError String :=
  match pyGet d k with
  | some v => .ok v
  | none => .error (.keyError k)

/-- Parsed `yaml.load(web_template)`: project name -> project website. -/
def websites : PyDict :=
  [("CoSSMic", "http://cossmic.eu/")]

/-- Parsed `yaml.load(region_template)`: region code -> region description. -/
def regions : PyDict :=
  [("DE_konstanz", "Germany, Konstanz")]

/-- Parsed `yaml.load(type_template)`: building-type code -> description. -/
def types : PyDict :=
  [("residential_4-person_suburb_building",
    "Residential building, located in the suburban area in a four-person household")]

/-- Parsed `yaml.load(descriptions_template)`: feed code -> human description,
with a `default` entry used as fallback. -/
def descriptions : PyDict :=
  [("grid_import", "Energy imported from the public grid in kWh"),
   ("grid_export", "Energy exported to the public grid in kWh"),
   ("consumption", "Total household energy consumption in kWh"),
   ("pv", "Total Photovoltaic energy generation in kWh"),
   ("ev", "Electric Vehicle charging energy in kWh"),
   ("storage_charge", "Battery charging energy in kWh"),
   ("storage_discharge", "Battery discharged energy in kWh"),
   ("heat_pump", "Heat pump energy consumption in kWh"),
   ("circulation_pump",
    "Circulation pump energy consumption, circulating the heated water of e.g. boilers in kWh"),
   ("dishwasher", "Dishwasher energy consumption in kWh"),
   ("washing_machine", "Washing machine energy consumption in kWh"),
   ("refrigerator", "Refridgerator energy consumption in kWh"),
   ("freezer", "Freezer energy consumption in kWh"),
   ("default", "Energy in kWh")]

/-- One entry of the `sources` list (from `source_template`). -/
structure SourceEntry where
  project : String
  web : String
  type : String
deriving DecidableEq, Repr

/-- The `opsd-properties` block of a data field (from `field_template`). -/
structure OpsdProperties where
  region : String
  household : String
  feed : String
deriving DecidableEq, Repr

/-- One entry of a schema's `fields` list (from `schemas_template` for the
three info fields, from `field_template` for data fields). -/
structure Field where
  name : String
  description : String
  type : String
  format : Option String
  opsd_contentfilter : Bool
  source : Option SourceEntry
  opsd_properties : Option OpsdProperties
deriving DecidableEq, Repr

/-- One schema of the `schemas` dictionary (from `schemas_template`). -/
structure Schema where
  primaryKey : String
  missingValue : String
  fields : List Field
deriving DecidableEq, Repr

/-- One `alternative_formats` entry of a CSV resource (from
`resource_template`). -/
structure AltFormat where
  path : String
  stacking : String
  format : String
deriving DecidableEq, Repr

/-- The `dialect` block of a CSV resource.  YAML parses `csvddfVersion: 1.0`
as the number 1.0; it is kept here as its literal text. -/
structure Dialect where
  csvddfVersion : String
  delimiter : String
  lineTerminator : String
  header : Bool
deriving DecidableEq, Repr

/-- One entry of the `resources` list. -/
structure Resource where
  path : String
  format : String
  mediatype : String
  encoding : Option String
  schema : Option String
  dialect : Option Dialect
  alternative_formats : List AltFormat
deriving DecidableEq, Repr

/-- The fixed first entry of `resource_list` (the xlsx descriptor). -/
def xlsx_resource : Resource :=
  { path := "time_series.xlsx"
    format := "xlsx"
    mediatype := "application/vnd.openxmlformats-officedocument.spreadsheetml.sheet"
    encoding := none
    schema := none
    dialect := none
    alternative_formats := [] }

/-- Parsed `resource_template.format(res_key=res_key)`. -/
def csv_resource (res_key : String) : Resource :=
  { path := "household_data_" ++ res_key ++ "_singleindex.csv"
    format := "csv"
    mediatype := "text/csv"
    encoding := some "UTF8"
    schema := some res_key
    dialect := some
      { csvddfVersion := "1.0"
        delimiter := ","
        lineTerminator := "\n"
        header := true }
    alternative_formats :=
      [{ path := "household_data_" ++ res_key ++ "_singleindex.csv"
         stacking := "Singleindex", format := "csv" },
       { path := "household_data.xlsx"
         stacking := "Multiindex", format := "xlsx" },
       { path := "household_data_" ++ res_key ++ "_multiindex.csv"
         stacking := "Multiindex", format := "csv" },
       { path := "household_data_" ++ res_key ++ "_stacked.csv"
         stacking := "Stacked", format := "csv" }] }

/-- The `{utc}` field of `schemas_template`. -/
def utc_field (utc : String) : Field :=
  { name := utc
    description := "Start of timeperiod in Coordinated Universal Time"
    type := "datetime"
    format := some "fmt:%Y-%m-%dT%H%M%SZ"
    opsd_contentfilter := true
    source := none
    opsd_properties := none }

/-- The `{cet}` field of `schemas_template`. -/
def cet_field (cet : String) : Field :=
  { name := cet
    description := "Start of timeperiod in Central European (Summer-) Time"
    type := "datetime"
    format := some "fmt:%Y-%m-%dT%H%M%S%z"
    opsd_contentfilter := false
    source := none
    opsd_properties := none }

/-- The `{marker}` field of `schemas_template`. -/
def marker_field (marker : String) : Field :=
  { name := marker
    description := "marker to indicate which columns are missing data in source data and has been interpolated (e.g. DE_transnetbw_solar_generation;)"
    type := "string"
    format := none
    opsd_contentfilter := false
    source := none
    opsd_properties := none }

/-- A contributor entry of `metadata_head`. -/
structure Contributor where
  web : String
  name : String
  email : String
deriving DecidableEq, Repr

/-- The static document header parsed from `metadata_head`, with `version`
and `last_changes` interpolated. -/
structure MetadataHead where
  name : String
  title : String
  description : String
  long_description : String
  documentation : String
  version : String
  last_changes : String
  keywords : List String
  geographical_scope : String
  contributors : List Contributor
deriving DecidableEq, Repr

/-- Parsed `yaml.load(metadata_head.format(version=version, changes=changes))`. -/
def metadata_head (version changes : String) : MetadataHead :=
  { name := "opsd_household_data"
    title := "Household Data"
    description := "Detailed household load and solar in minutely to hourly resolution"
    long_description := "This data package contains different kinds of timeseries data relevant for power system modelling, namely electricity consumption (load) as well as solar power generation for several small businesses and private households, in a resolution up to single device consumptions. The timeseries become available at different points in time depending on the sources. The data has been downloaded from the sources, resampled and merged in large CSV files with minutely to hourly resolution. Most measurements were done initially in 3 minute intervals, to later on minutely intervals. To improve the datas classifyability, additional 15- and 60-minute interval files are provided. All data processing is conducted in python and pandas and has been documented in the Jupyter notebooks linked below."
    documentation := "https://github.com/isc-konstanz/household_data/blob/master/main.ipynb"
    version := version
    last_changes := changes
    keywords :=
      ["Open Power System Data", "CoSSMic", "household data", "time series",
       "power systems", "in-feed", "renewables", "solar", "power consumption"]
    geographical_scope := "Southern Germany"
    contributors :=
      [{ web := "http://isc-konstanz.de/"
         name := "Adrian Minde"
         email := "adrian.minde@isc-konstanz.de" }] }

/-- The assembled document (the JSON object written to `datapackage.json`). -/
structure Datapackage where
  head : MetadataHead
  sources : List SourceEntry
  resources : List Resource
  schemas : List (String × Schema)
deriving DecidableEq, Repr

/-- What a call to `make_json` does on success: it writes the serialized
document to a file and returns `None` (no document is returned). -/
structure MakeJsonResult where
  fileName : String
  doc : Datapackage
  returned : Option Datapackage
deriving DecidableEq, Repr

/-- The list `info_cols.values()`. -/
def infoValsOf (info_cols : PyDict) : List String :=
  info_cols.map Prod.snd

/-- The test `col[0] in info_cols.values()` deciding that a column is one of
the non-data info columns (an empty header tuple is treated as data here; the
loop raises `IndexError` on it before the test anyway). -/
def isInfoCol (infoVals : List String) (col : Col) : Bool :=
  match col with
  | [] => false
  | c0 :: _ => decide (c0 ∈ infoVals)

/-- The per-column body of the loop: build `h` from `zip(headers, col)`,
resolve `project` -> website, `region` -> region description, `type` ->
building-type description (each `KeyError` fatal), resolve `feed` ->
description with fallback to `descriptions['default']` on `KeyError`, then
instantiate `field_template` and `source_template` (whose `format(**h)`
raises `KeyError` when `household` or `feed` is missing from `h`). -/
def processColumn (headers : List String) (col : Col) :
    Except MJError (Field × SourceEntry) := do
  let h := headers.zip col
  let project ← pyGetE h "project"
  let web ← pyGetE websites project
  let region_code ← pyGetE h "region"
  let region ← pyGetE regions region_code
  let type_code ← pyGetE h "type"
  let type_text ← pyGetE types type_code
  let description ←
    match pyGet h "feed" with
    | some feed =>
      match pyGet descriptions feed with
      | some d => Except.ok d
      | none => pyGetE descriptions "default"
    | none => pyGetE descriptions "default"
  let household ← pyGetE h "household"
  let feed ← pyGetE h "feed"
  Except.ok
    ({ name := household ++ "_" ++ feed
       description := description
       type := "number (float)"
       format := none
       opsd_contentfilter := false
       source := some { project := project, web := web, type := type_text }
       opsd_properties := some { region := region, household := household, feed := feed } },
     { project := project, web := web, type := type_text })

/-- The column loop of `make_json`: `col[0]` on an empty tuple raises
`IndexError`; a column whose first header value is an info-column value is
skipped; every other column is processed and its field and source entries
appended in order. -/
def processCols (headers : List String) (infoVals : List String) :
    List Col → Except MJError (List Field × List SourceEntry)
  | [] => .ok ([], [])
  | col :: rest =>
    match col with
    | [] => .error .indexError
    | c0 :: _ =>
      if c0 ∈ infoVals then
        processCols headers infoVals rest
      else do
        let (fld, src) ← processColumn headers col
        let (fs, ss) ← processCols headers infoVals rest
        .ok (fld :: fs, src :: ss)

/-- Instantiating `schemas_template.format(res_key=res_key, **info_cols)` and the
accumulated `field_list`: a `KeyError` is raised when `utc`, `cet` or `marker`
is missing from `info_cols`. -/
def make_schema (info_cols : PyDict) (fields : List Field) :
    Except MJError Schema := do
  let utc ← pyGetE info_cols "utc"
  let cet ← pyGetE info_cols "cet"
  let marker ← pyGetE info_cols "marker"
  Except.ok
    { primaryKey := utc
      missingValue := ""
      fields := utc_field utc :: cet_field cet :: marker_field marker :: fields }

/-- The `for res_key, df in data_sets.items()` loop: per resolution key,
append one `resource_template` instance, process the columns, and append one
schema built from the info fields followed by the data fields. -/
def make_json_loop (headers : List String) (info_cols : PyDict) :
    List (String × List Col) →
    Except MJError (List Resource × List SourceEntry × List (String × Schema))
  | [] => .ok ([], [], [])
  | (res_key, cols) :: rest => do
    let (fs, ss) ← processCols headers (infoValsOf info_cols) cols
    let sch ← make_schema info_cols fs
    let (rs, ss', schs) ← make_json_loop headers info_cols rest
    .ok (csv_resource res_key :: rs, ss ++ ss', (res_key, sch) :: schs)

/-- Source deduplication: `yaml.load('')` is `None`, so an empty source list
raises `TypeError` when iterated; otherwise `set()` keeps the distinct
triples in an unspecified iteration order, modelled by `shuffle`. -/
def dedup_sources (shuffle : List SourceEntry → List SourceEntry)
    (ss : List SourceEntry) : Except MJError (List SourceEntry) :=
  match ss with
  | [] => .error .typeError
  | _ => .ok (shuffle ss.dedup)

/-- The whole of `make_json(data_sets, info_cols, version, changes, headers)`.
`shuffle` stands for the iteration order of the Python `set` used in source
deduplication (any permutation).  On success the document is written to
`datapackage.json` and the Python function returns `None`. -/
def make_json (shuffle : List SourceEntry → List SourceEntry)
    (data_sets : List (String × List Col)) (info_cols : PyDict)
    (version changes : String) (headers : List String) :
    Except MJError MakeJsonResult := do
  let (rs, ss, schs) ← make_json_loop headers info_cols data_sets
  let sources ← dedup_sources shuffle ss
  Except.ok
    { fileName := "datapackage.json"
      doc :=
        { head := metadata_head version changes
          sources := sources
          resources := xlsx_resource :: rs
          schemas := schs }
      returned := none }

/-- The `schemas` part of a run's written document (empty on an exception). -/
def schemasOf (e : Except MJError MakeJsonResult) : List (String × Schema) :=
  match e with
  | .ok r => r.doc.schemas
  | .error _ => []

/-- The `sources` part of a run's written document (empty on an exception). -/
def sourcesOf (e : Except MJError MakeJsonResult) : List SourceEntry :=
  match e with
  | .ok r => r.doc.sources
  | .error _ => []

/-- The `resources` part of a run's written document (empty on an exception). -/
def resourcesOf (e : Except MJError MakeJsonResult) : List Resource :=
  match e with
  | .ok r => r.doc.resources
  | .error _ => []

/-- The value a successful `make_json` call returns to its caller. -/
def returnedOf (e : Except MJError MakeJsonResult) : Option Datapackage :=
  match e with
  | .ok r => r.returned
  | .error _ => none

/-- The path a successful `make_json` call writes the document to. -/
def fileNameOf (e : Except MJError MakeJsonResult) : Option String :=
  match e with
  | .ok r => some r.fileName
  | .error _ => none

/-- Header level names of the household datapackage column MultiIndex. -/
def test_headers : List String :=
  ["region", "household", "type", "unit", "feed", "project"]

/-- Names for the non-data columns, as in the household pipeline. -/
def test_info_cols : PyDict :=
  [("utc", "utc_timestamp"), ("cet", "cet_timestamp"), ("marker", "interpolated")]

/-- The UTC timestamp index column of the synthetic table. -/
def test_col_info : Col :=
  ["utc_timestamp", "", "", "", "", ""]

/-- A photovoltaic data column of the synthetic table. -/
def test_col_pv : Col :=
  ["DE_konstanz", "DE_KN_residential1", "residential_4-person_suburb_building",
   "kWh", "pv", "CoSSMic"]

/-- The synthetic two-column `"15min"` dataset collection. -/
def test_data_sets : List (String × List Col) :=
  [("15min", [test_col_info, test_col_pv])]

@[simp] theorem ok_bind {α β : Type} (a : α) (f : α → Except MJError β) :
    (Except.ok a >>= f : Except MJError β) = f a := rfl

@[simp] theorem error_bind {α β : Type} (e : MJError) (f : α → Except MJError β) :
    (Except.error e >>= f : Except MJError β) = Except.error e := rfl

theorem processColumn_ok_inv (headers : List String) (col : Col) (fld : Field)
    (src : SourceEntry) (h : processColumn headers col = .ok (fld, src)) :
    ∃ p w rc rd tc td hh ff d,
      pyGet (headers.zip col) "project" = some p ∧ pyGet websites p = some w ∧
      pyGet (headers.zip col) "region" = some rc ∧ pyGet regions rc = some rd ∧
      pyGet (headers.zip col) "type" = some tc ∧ pyGet types tc = some td ∧
      pyGet (headers.zip col) "household" = some hh ∧
      pyGet (headers.zip col) "feed" = some ff ∧
      (pyGet descriptions ff = some d ∨
        (pyGet descriptions ff = none ∧ d = "Energy in kWh")) ∧
      src = { project := p, web := w, type := td } ∧
      fld = { name := hh ++ "_" ++ ff, description := d,
              type := "number (float)", format := none, opsd_contentfilter := false,
              source := some { project := p, web := w, type := td },
              opsd_properties := some { region := rd, household := hh, feed := ff } } := by
  have hdef : pyGet descriptions "default" = some "Energy in kWh" := rfl
  unfold processColumn at h
  rcases hp : pyGet (headers.zip col) "project" with _ | p
  · simp [pyGetE, hp] at h
  simp only [pyGetE, hp, ok_bind, error_bind] at h
  rcases hw : pyGet websites p with _ | w
  · simp [hw] at h
  simp only [hw, ok_bind, error_bind] at h
  rcases hrc : pyGet (headers.zip col) "region" with _ | rc
  · simp [hrc] at h
  simp only [hrc, ok_bind, error_bind] at h
  rcases hrd : pyGet regions rc with _ | rd
  · simp [hrd] at h
  simp only [hrd, ok_bind, error_bind] at h
  rcases htc : pyGet (headers.zip col) "type" with _ | tc
  · simp [htc] at h
  simp only [htc, ok_bind, error_bind] at h
  rcases htd : pyGet types tc with _ | td
  · simp [htd] at h
  simp only [htd, ok_bind, error_bind] at h
  rcases hff : pyGet (headers.zip col) "feed" with _ | ff
  · rcases hhh : pyGet (headers.zip col) "household" with _ | hh <;>
      simp [hff, hhh, hdef] at h
  simp only [hff] at h
  rcases hhh : pyGet (headers.zip col) "household" with _ | hh
  · rcases hd : pyGet descriptions ff with _ | d <;>
      simp [hd, hhh, hdef] at h
  rcases hd : pyGet descriptions ff with _ | d
  · simp only [hd, hhh, hdef, ok_bind, error_bind] at h
    rw [Except.ok.injEq, Prod.mk.injEq] at h
    obtain ⟨h1, h2⟩ := h
    subst h1; subst h2
    exact ⟨p, w, rc, rd, tc, td, hh, ff, "Energy in kWh", rfl, hw, rfl, hrd,
      rfl, htd, rfl, rfl, Or.inr ⟨hd, rfl⟩, rfl, rfl⟩
  · simp only [hd, hhh, ok_bind, error_bind] at h
    rw [Except.ok.injEq, Prod.mk.injEq] at h
    obtain ⟨h1, h2⟩ := h
    subst h1; subst h2
    exact ⟨p, w, rc, rd, tc, td, hh, ff, d, rfl, hw, rfl, hrd,
      rfl, htd, rfl, rfl, Or.inl hd, rfl, rfl⟩

theorem processColumn_ok_of (headers : List String) (col : Col)
    (p w rc rd tc td hh ff d : String)
    (hp : pyGet (headers.zip col) "project" = some p)
    (hw : pyGet websites p = some w)
    (hrc : pyGet (headers.zip col) "region" = some rc)
    (hrd : pyGet regions rc = some rd)
    (htc : pyGet (headers.zip col) "type" = some tc)
    (htd : pyGet types tc = some td)
    (hhh : pyGet (headers.zip col) "household" = some hh)
    (hff : pyGet (headers.zip col) "feed" = some ff)
    (hd : pyGet descriptions ff = some d) :
    processColumn headers col = .ok
      ({ name := hh ++ "_" ++ ff, description := d,
         type := "number (float)", format := none, opsd_contentfilter := false,
         source := some { project := p, web := w, type := td },
         opsd_properties := some { region := rd, household := hh, feed := ff } },
       { project := p, web := w, type := td }) := by
  unfold processColumn
  simp only [pyGetE, hp, hw, hrc, hrd, htc, htd, hff, hhh, hd, ok_bind]

theorem processCols_forall2 (headers : List String) (iv : List String)
    (cols : List Col) (fs : List Field) (ss : List SourceEntry)
    (h : processCols headers iv cols = .ok (fs, ss)) :
    List.Forall₂ (fun fld c => ∃ src, processColumn headers c = .ok (fld, src))
      fs (cols.filter (fun c => !(isInfoCol iv c))) := by
  induction cols generalizing fs ss with
  | nil =>
    simp only [processCols, Except.ok.injEq, Prod.mk.injEq] at h
    obtain ⟨rfl, rfl⟩ := h
    simp
  | cons col rest ih =>
    rcases col with _ | ⟨c0, ct⟩
    · simp [processCols] at h
    simp only [processCols] at h
    by_cases hin : c0 ∈ iv
    · rw [if_pos hin] at h
      simpa [isInfoCol, hin] using ih _ _ h
    · rw [if_neg hin] at h
      rcases hpc : processColumn headers (c0 :: ct) with e | ⟨fld, src⟩
      · simp [hpc] at h
      rcases hrest : processCols headers iv rest with e | ⟨fs', ss'⟩
      · simp [hpc, hrest] at h
      simp only [hpc, hrest, ok_bind] at h
      obtain ⟨rfl, rfl⟩ := Prod.mk.injEq .. ▸ Except.ok.injEq .. ▸ h
      simpa [isInfoCol, hin] using List.Forall₂.cons ⟨src, hpc⟩ (ih _ _ hrest)

theorem processCols_mem (headers : List String) (iv : List String)
    (cols : List Col) (fs : List Field) (ss : List SourceEntry)
    (h : processCols headers iv cols = .ok (fs, ss))
    (c0 : String) (ct : List String) (hmem : (c0 :: ct) ∈ cols) (hni : c0 ∉ iv) :
    ∃ fld src, processColumn headers (c0 :: ct) = .ok (fld, src) ∧
      fld ∈ fs ∧ src ∈ ss := by
  induction cols generalizing fs ss with
  | nil => cases hmem
  | cons col rest ih =>
    rcases col with _ | ⟨c0', ct'⟩
    · simp [processCols] at h
    simp only [processCols] at h
    by_cases hin : c0' ∈ iv
    · rw [if_pos hin] at h
      rcases List.mem_cons.mp hmem with heq | hmem'
      · injection heq with h1 h2
        subst h1
        exact absurd hin hni
      · exact ih _ _ h hmem'
    · rw [if_neg hin] at h
      rcases hpc : processColumn headers (c0' :: ct') with e | ⟨fld, src⟩
      · simp [hpc] at h
      rcases hrest : processCols headers iv rest with e | ⟨fs', ss'⟩
      · simp [hpc, hrest] at h
      simp only [hpc, hrest, ok_bind] at h
      obtain ⟨rfl, rfl⟩ := Prod.mk.injEq .. ▸ Except.ok.injEq .. ▸ h
      rcases List.mem_cons.mp hmem with heq | hmem'
      · injection heq with h1 h2
        subst h1; subst h2
        exact ⟨fld, src, hpc, List.mem_cons_self .., List.mem_cons_self ..⟩
      · obtain ⟨fld', src', hpc', hf', hs'⟩ := ih _ _ hrest hmem'
        exact ⟨fld', src', hpc', List.mem_cons_of_mem _ hf', List.mem_cons_of_mem _ hs'⟩

theorem processCols_mem_left (headers : List String) (iv : List String)
    (cols : List Col) (fs : List Field) (ss : List SourceEntry)
    (h : processCols headers iv cols = .ok (fs, ss)) :
    ∀ fld ∈ fs, ∃ col src, col ∈ cols ∧ processColumn headers col = .ok (fld, src) := by
  induction cols generalizing fs ss with
  | nil =>
    simp only [processCols, Except.ok.injEq, Prod.mk.injEq] at h
    obtain ⟨rfl, rfl⟩ := h
    simp
  | cons col rest ih =>
    rcases col with _ | ⟨c0, ct⟩
    · simp [processCols] at h
    simp only [processCols] at h
    by_cases hin : c0 ∈ iv
    · rw [if_pos hin] at h
      intro fld hf
      obtain ⟨col', src', hc', hpc'⟩ := ih _ _ h fld hf
      exact ⟨col', src', List.mem_cons_of_mem _ hc', hpc'⟩
    · rw [if_neg hin] at h
      rcases hpc : processColumn headers (c0 :: ct) with e | ⟨fld, src⟩
      · simp [hpc] at h
      rcases hrest : processCols headers iv rest with e | ⟨fs', ss'⟩
      · simp [hpc, hrest] at h
      simp only [hpc, hrest, ok_bind] at h
      obtain ⟨rfl, rfl⟩ := Prod.mk.injEq .. ▸ Except.ok.injEq .. ▸ h
      intro fld' hf'
      rcases List.mem_cons.mp hf' with heq | hf''
      · subst heq
        exact ⟨c0 :: ct, src, List.mem_cons_self .., hpc⟩
      · obtain ⟨col', src', hc', hpc'⟩ := ih _ _ hrest fld' hf''
        exact ⟨col', src', List.mem_cons_of_mem _ hc', hpc'⟩

theorem make_schema_ok_inv (info_cols : PyDict) (fields : List Field) (sch : Schema)
    (h : make_schema info_cols fields = .ok sch) :
    ∃ u cet m, pyGet info_cols "utc" = some u ∧ pyGet info_cols "cet" = some cet ∧
      pyGet info_cols "marker" = some m ∧
      sch = { primaryKey := u, missingValue := "",
              fields := utc_field u :: cet_field cet :: marker_field m :: fields } := by
  unfold make_schema at h
  rcases hu : pyGet info_cols "utc" with _ | u
  · simp [pyGetE, hu] at h
  simp only [pyGetE, hu, ok_bind] at h
  rcases hc : pyGet info_cols "cet" with _ | cet
  · simp [hc] at h
  simp only [hc, ok_bind] at h
  rcases hm : pyGet info_cols "marker" with _ | m
  · simp [hm] at h
  simp only [hm, ok_bind] at h
  exact ⟨u, cet, m, rfl, rfl, rfl, (Except.ok.injEq .. ▸ h).symm⟩

theorem make_json_loop_ok_inv (headers : List String) (info_cols : PyDict)
    (ds : List (String × List Col)) (rs : List Resource) (ss : List SourceEntry)
    (schs : List (String × Schema))
    (h : make_json_loop headers info_cols ds = .ok (rs, ss, schs)) :
    rs = ds.map (fun p => csv_resource p.1) ∧
    schs.map Prod.fst = ds.map Prod.fst ∧
    (∀ k cols, (k, cols) ∈ ds → ∃ fs ss',
      processCols headers (infoValsOf info_cols) cols = .ok (fs, ss') ∧
      (∀ s ∈ ss', s ∈ ss) ∧
      ∃ u cet m, pyGet info_cols "utc" = some u ∧ pyGet info_cols "cet" = some cet ∧
        pyGet info_cols "marker" = some m ∧
        (k, { primaryKey := u, missingValue := "",
              fields := utc_field u :: cet_field cet :: marker_field m :: fs }) ∈ schs) ∧
    (∀ k sch, (k, sch) ∈ schs → ∃ cols fs ss',
      (k, cols) ∈ ds ∧
      processCols headers (infoValsOf info_cols) cols = .ok (fs, ss') ∧
      ∃ u cet m, pyGet info_cols "utc" = some u ∧ pyGet info_cols "cet" = some cet ∧
        pyGet info_cols "marker" = some m ∧
        sch = { primaryKey := u, missingValue := "",
                fields := utc_field u :: cet_field cet :: marker_field m :: fs }) := by
  induction ds generalizing rs ss schs with
  | nil =>
    simp only [make_json_loop, Except.ok.injEq, Prod.mk.injEq] at h
    obtain ⟨rfl, rfl, rfl⟩ := h
    simp
  | cons p rest ih =>
    obtain ⟨k0, cols0⟩ := p
    simp only [make_json_loop] at h
    rcases hpc : processCols headers (infoValsOf info_cols) cols0 with e | ⟨fs0, ss0⟩
    · simp [hpc] at h
    rcases hsch : make_schema info_cols fs0 with e | sch0
    · simp [hpc, hsch] at h
    rcases hrec : make_json_loop headers info_cols rest with e | ⟨rs', ss'', schs'⟩
    · simp [hpc, hsch, hrec] at h
    simp only [hpc, hsch, hrec, ok_bind] at h
    obtain ⟨rfl, rfl, rfl⟩ := Prod.mk.injEq .. ▸ Prod.mk.injEq .. ▸ Except.ok.injEq .. ▸ h
    obtain ⟨ihr, ihk, ihmem, ihschs⟩ := ih _ _ _ hrec
    obtain ⟨u, cet, m, hu, hc, hm, rfl⟩ := make_schema_ok_inv _ _ _ hsch
    refine ⟨by simp [ihr], by simp [ihk], ?_, ?_⟩
    · intro k cols hmem
      rcases List.mem_cons.mp hmem with heq | hmem'
      · injection heq with h1 h2
        subst h1; subst h2
        exact ⟨fs0, ss0, hpc, fun s hs => List.mem_append_left _ hs,
          u, cet, m, hu, hc, hm, List.mem_cons_self ..⟩
      · obtain ⟨fs, ss', hp', hsub, u', cet', m', hu', hc', hm', hin⟩ := ihmem k cols hmem'
        exact ⟨fs, ss', hp', fun s hs => List.mem_append_right _ (hsub s hs),
          u', cet', m', hu', hc', hm', List.mem_cons_of_mem _ hin⟩
    · intro k sch hmem
      rcases List.mem_cons.mp hmem with heq | hmem'
      · injection heq with h1 h2
        subst h1; subst h2
        exact ⟨cols0, fs0, ss0, List.mem_cons_self .., hpc, u, cet, m, hu, hc, hm, rfl⟩
      · obtain ⟨cols, fs, ss', hin, hp', hrest⟩ := ihschs k sch hmem'
        exact ⟨cols, fs, ss', List.mem_cons_of_mem _ hin, hp', hrest⟩

theorem make_json_ok_inv (shuffle : List SourceEntry → List SourceEntry)
    (ds : List (String × List Col)) (info_cols : PyDict)
    (version changes : String) (headers : List String) (r : MakeJsonResult)
    (h : make_json shuffle ds info_cols version changes headers = .ok r) :
    ∃ rs ss schs, make_json_loop headers info_cols ds = .ok (rs, ss, schs) ∧ ss ≠ [] ∧
      r = { fileName := "datapackage.json",
            doc := { head := metadata_head version changes,
                     sources := shuffle ss.dedup,
                     resources := xlsx_resource :: rs,
                     schemas := schs },
            returned := none } := by
  unfold make_json at h
  rcases hl : make_json_loop headers info_cols ds with e | ⟨rs, ss, schs⟩
  · simp [hl] at h
  simp only [hl, ok_bind] at h
  rcases ss with _ | ⟨s0, ss'⟩
  · simp [dedup_sources] at h
  simp only [dedup_sources, ok_bind] at h
  exact ⟨rs, s0 :: ss', schs, rfl, by simp, (Except.ok.injEq .. ▸ h).symm⟩

theorem processCols_all_info (headers : List String) (iv : List String)
    (cols : List Col)
    (hall : ∀ col ∈ cols, (List.head? col).any (fun c0 => decide (c0 ∈ iv)) = true) :
    processCols headers iv cols = .ok ([], []) := by
  induction cols with
  | nil => rfl
  | cons col rest ih =>
    have hcol := hall col (List.mem_cons_self ..)
    rcases col with _ | ⟨c0, ct⟩
    · simp at hcol
    have hin : c0 ∈ iv := by simpa using hcol
    simp only [processCols, if_pos hin]
    exact ih (fun c hc => hall c (List.mem_cons_of_mem _ hc))

theorem make_json_loop_all_info (headers : List String) (info_cols : PyDict)
    (ds : List (String × List Col)) (u cet m : String)
    (hu : pyGet info_cols "utc" = some u)
    (hc : pyGet info_cols "cet" = some cet)
    (hm : pyGet info_cols "marker" = some m)
    (hall : ∀ p ∈ ds, ∀ col ∈ p.2,
      (List.head? col).any (fun c0 => decide (c0 ∈ infoValsOf info_cols)) = true) :
    ∃ schs, make_json_loop headers info_cols ds =
      .ok (ds.map (fun p => csv_resource p.1), [], schs) := by
  induction ds with
  | nil => exact ⟨[], rfl⟩
  | cons p rest ih =>
    obtain ⟨k0, cols0⟩ := p
    have h1 : processCols headers (infoValsOf info_cols) cols0 = .ok ([], []) :=
      processCols_all_info _ _ _ (hall _ (List.mem_cons_self ..))
    obtain ⟨schs', hrec⟩ := ih (fun q hq => hall q (List.mem_cons_of_mem _ hq))
    refine ⟨(k0, { primaryKey := u, missingValue := "",
                   fields := [utc_field u, cet_field cet, marker_field m] }) :: schs', ?_⟩
    simp only [make_json_loop, h1, ok_bind, make_schema, pyGetE, hu, hc, hm, hrec]
    rfl

@[simp] theorem map_ok {α β : Type} (f : α → β) (a : α) :
    (Except.map f (Except.ok a) : Except MJError β) = .ok (f a) := rfl

@[simp] theorem map_error {α β : Type} (f : α → β) (e : MJError) :
    (Except.map f (Except.error e) : Except MJError β) = .error e := rfl

/-- C1: for a column processed by `make_json`, a feed code absent from the
feed-description table yields the default description string `"Energy in kWh"`
verbatim, whereas a project, region, or building-type code absent from its
lookup table raises a fatal `KeyError` that aborts the whole run. -/
theorem make_json_missing_key_asymmetry
    (headers : List String) (col : Col) (p rc tc hh ff : String)
    (hp : pyGet (headers.zip col) "project" = some p)
    (hrc : pyGet (headers.zip col) "region" = some rc)
    (htc : pyGet (headers.zip col) "type" = some tc)
    (hhh : pyGet (headers.zip col) "household" = some hh)
    (hff : pyGet (headers.zip col) "feed" = some ff) :
    (pyGet websites p = none →
      processColumn headers col = .error (.keyError p)) ∧
    (∀ w, pyGet websites p = some w → pyGet regions rc = none →
      processColumn headers col = .error (.keyError rc)) ∧
    (∀ w rd, pyGet websites p = some w → pyGet regions rc = some rd →
      pyGet types tc = none →
      processColumn headers col = .error (.keyError tc)) ∧
    (∀ w rd td, pyGet websites p = some w → pyGet regions rc = some rd →
      pyGet types tc = some td → pyGet descriptions ff = none →
      Except.map (fun out => out.1.description) (processColumn headers col) =
        .ok "Energy in kWh") ∧
    (∀ shuffle res_key info_cols version changes,
      (List.head? col).any (fun c0 => decide (c0 ∉ infoValsOf info_cols)) = true →
      pyGet websites p = none →
      make_json shuffle [(res_key, [col])] info_cols version changes headers =
        .error (.keyError p)) := by
  have hdef : pyGet descriptions "default" = some "Energy in kWh" := rfl
  refine ⟨?_, ?_, ?_, ?_, ?_⟩
  · intro hw
    unfold processColumn
    simp only [pyGetE, hp, hw, ok_bind, error_bind]
  · intro w hw hr
    unfold processColumn
    simp only [pyGetE, hp, hw, hrc, hr, ok_bind, error_bind]
  · intro w rd hw hr ht
    unfold processColumn
    simp only [pyGetE, hp, hw, hrc, hr, htc, ht, ok_bind, error_bind]
  · intro w rd td hw hr ht hd
    unfold processColumn
    simp only [pyGetE, hp, hw, hrc, hr, htc, ht, hff, hd, hdef, hhh, ok_bind,
      error_bind, map_ok]
  · intro shuffle res_key info_cols version changes hni hw
    rcases col with _ | ⟨c0, ct⟩
    · simp at hni
    have hc0 : c0 ∉ infoValsOf info_cols := by simpa using hni
    have herr : processColumn headers (c0 :: ct) = .error (.keyError p) := by
      unfold processColumn
      simp only [pyGetE, hp, hw, ok_bind, error_bind]
    unfold make_json make_json_loop
    simp only [processCols, if_neg hc0, herr, ok_bind, error_bind]

/-- C1 witness: concrete columns exercising the default-description fallback
for an unknown feed and the fatal `KeyError` for each of an unknown project,
region, or building-type code, the latter aborting a whole `make_json` run. -/
theorem make_json_missing_key_asymmetry_witness :
    processColumn test_headers
        ["DE_konstanz", "h1", "residential_4-person_suburb_building", "kWh", "pv", "NoProj"] =
      .error (.keyError "NoProj") ∧
    processColumn test_headers
        ["NoRegion", "h1", "residential_4-person_suburb_building", "kWh", "pv", "CoSSMic"] =
      .error (.keyError "NoRegion") ∧
    processColumn test_headers
        ["DE_konstanz", "h1", "NoType", "kWh", "pv", "CoSSMic"] =
      .error (.keyError "NoType") ∧
    Except.map (fun out => out.1.description)
      (processColumn test_headers
        ["DE_konstanz", "h1", "residential_4-person_suburb_building", "kWh", "newfeed", "CoSSMic"]) =
      .ok "Energy in kWh" ∧
    make_json id
        [("15min",
          [["DE_konstanz", "h1", "residential_4-person_suburb_building", "kWh", "pv", "NoProj"]])]
        test_info_cols "1.0.0" "initial" test_headers =
      .error (.keyError "NoProj") := by
  refine ⟨?_, ?_, ?_, ?_, ?_⟩
  · exact (make_json_missing_key_asymmetry test_headers
      ["DE_konstanz", "h1", "residential_4-person_suburb_building", "kWh", "pv", "NoProj"]
      "NoProj" "DE_konstanz"
      "residential_4-person_suburb_building" "h1" "pv" rfl rfl rfl rfl rfl).1 rfl
  · exact (make_json_missing_key_asymmetry test_headers
      ["NoRegion", "h1", "residential_4-person_suburb_building", "kWh", "pv", "CoSSMic"]
      "CoSSMic" "NoRegion"
      "residential_4-person_suburb_building" "h1" "pv" rfl rfl rfl rfl rfl).2.1
      "http://cossmic.eu/" rfl rfl
  · exact (make_json_missing_key_asymmetry test_headers
      ["DE_konstanz", "h1", "NoType", "kWh", "pv", "CoSSMic"]
      "CoSSMic" "DE_konstanz"
      "NoType" "h1" "pv" rfl rfl rfl rfl rfl).2.2.1
      "http://cossmic.eu/" "Germany, Konstanz" rfl rfl rfl
  · exact (make_json_missing_key_asymmetry test_headers
      ["DE_konstanz", "h1", "residential_4-person_suburb_building", "kWh", "newfeed", "CoSSMic"]
      "CoSSMic" "DE_konstanz"
      "residential_4-person_suburb_building" "h1" "newfeed" rfl rfl rfl rfl rfl).2.2.2.1
      "http://cossmic.eu/" "Germany, Konstanz"
      "Residential building, located in the suburban area in a four-person household"
      rfl rfl rfl rfl
  · exact (make_json_missing_key_asymmetry test_headers
      ["DE_konstanz", "h1", "residential_4-person_suburb_building", "kWh", "pv", "NoProj"]
      "NoProj" "DE_konstanz"
      "residential_4-person_suburb_building" "h1" "pv" rfl rfl rfl rfl rfl).2.2.2.2
      id "15min" test_info_cols "1.0.0" "initial" rfl rfl

/-- C2: for any input dataset collection containing resolution key `"15min"`
with a data column whose header record has household `DE_KN_residential1`,
feed `pv`, project `CoSSMic`, region `DE_konstanz` and type
`residential_4-person_suburb_building`, a successful run's output schema for
`"15min"` contains a field named `DE_KN_residential1_pv` whose description is
exactly `"Total Photovoltaic energy generation in kWh"`. -/
theorem make_json_pv_field_description
    (shuffle : List SourceEntry → List SourceEntry)
    (ds : List (String × List Col)) (info_cols : PyDict)
    (version changes : String) (headers : List String) (r : MakeJsonResult)
    (cols : List Col) (col : Col)
    (hok : make_json shuffle ds info_cols version changes headers = .ok r)
    (hds : ("15min", cols) ∈ ds) (hcol : col ∈ cols)
    (hni : (List.head? col).any (fun c0 => decide (c0 ∉ infoValsOf info_cols)) = true)
    (hh : pyGet (headers.zip col) "household" = some "DE_KN_residential1")
    (hf : pyGet (headers.zip col) "feed" = some "pv")
    (hp : pyGet (headers.zip col) "project" = some "CoSSMic")
    (hr : pyGet (headers.zip col) "region" = some "DE_konstanz")
    (ht : pyGet (headers.zip col) "type" = some "residential_4-person_suburb_building") :
    ∃ sch, ("15min", sch) ∈ r.doc.schemas ∧ ∃ fld, fld ∈ sch.fields ∧
      fld.name = "DE_KN_residential1_pv" ∧
      fld.description = "Total Photovoltaic energy generation in kWh" := by
  obtain ⟨rs, ss, schs, hloop, hne, rfl⟩ := make_json_ok_inv _ _ _ _ _ _ _ hok
  obtain ⟨_, _, hmem, _⟩ := make_json_loop_ok_inv _ _ _ _ _ _ hloop
  obtain ⟨fs, ss', hpc, hsub, u, cet, m, hu, hcet, hmk, hin⟩ := hmem "15min" cols hds
  rcases col with _ | ⟨c0, ct⟩
  · simp at hni
  have hc0 : c0 ∉ infoValsOf info_cols := by simpa using hni
  have hfwd := processColumn_ok_of headers (c0 :: ct) "CoSSMic" "http://cossmic.eu/"
    "DE_konstanz" "Germany, Konstanz" "residential_4-person_suburb_building"
    "Residential building, located in the suburban area in a four-person household"
    "DE_KN_residential1" "pv" "Total Photovoltaic energy generation in kWh"
    hp rfl hr rfl ht rfl hh hf rfl
  obtain ⟨fld, src, hpcc, hfmem, _⟩ := processCols_mem _ _ _ _ _ hpc c0 ct hcol hc0
  rw [hfwd] at hpcc
  obtain ⟨h1, h2⟩ := Prod.mk.injEq .. ▸ Except.ok.injEq .. ▸ hpcc
  subst h1
  exact ⟨_, hin, _, List.mem_cons_of_mem _ (List.mem_cons_of_mem _
    (List.mem_cons_of_mem _ hfmem)), rfl, rfl⟩

/-- C2 witness: the synthetic two-column `"15min"` dataset produces a
`DE_KN_residential1_pv` field with the photovoltaic description. -/
theorem make_json_pv_field_description_witness :
    ∃ sch, ("15min", sch) ∈
      schemasOf (make_json id test_data_sets test_info_cols "1.0.0" "initial" test_headers) ∧
    ∃ fld, fld ∈ sch.fields ∧
      fld.name = "DE_KN_residential1_pv" ∧
      fld.description = "Total Photovoltaic energy generation in kWh" := by
  have h := make_json_pv_field_description id test_data_sets test_info_cols
    "1.0.0" "initial" test_headers _ [test_col_info, test_col_pv] test_col_pv
    rfl (List.mem_cons_self ..) (by simp [test_col_pv, test_col_info])
    rfl rfl rfl rfl rfl rfl
  exact h

theorem countP_fst_eq_count {α : Type} (l : List (String × α)) (k : String) :
    l.countP (fun q => q.1 == k) = (l.map Prod.fst).count k := by
  induction l with
  | nil => rfl
  | cons a t ih => rw [List.countP_cons, List.map_cons, List.count_cons, ih]

/-- C3: on a successful run over distinct resolution keys (a Python dict),
the output has exactly one resource descriptor per resolution key (the one
whose `schema` field names that key), exactly one schema entry keyed by that
key, and exactly one fixed xlsx resource descriptor tied to no key. -/
theorem make_json_resources_schemas_unique
    (shuffle : List SourceEntry → List SourceEntry)
    (ds : List (String × List Col)) (info_cols : PyDict)
    (version changes : String) (headers : List String) (r : MakeJsonResult)
    (hkeys : (ds.map Prod.fst).Nodup)
    (hok : make_json shuffle ds info_cols version changes headers = .ok r) :
    r.doc.resources.countP (fun res => res == xlsx_resource) = 1 ∧
    ∀ k, k ∈ ds.map Prod.fst →
      r.doc.resources.countP (fun res => res.schema == some k) = 1 ∧
      r.doc.schemas.countP (fun en => en.1 == k) = 1 := by
  obtain ⟨rs, ss, schs, hloop, hne, rfl⟩ := make_json_ok_inv _ _ _ _ _ _ _ hok
  obtain ⟨hrs, hks, _, _⟩ := make_json_loop_ok_inv _ _ _ _ _ _ hloop
  subst hrs
  constructor
  · rw [List.countP_cons]
    have h0 : (ds.map (fun q => csv_resource q.1)).countP
        (fun res => res == xlsx_resource) = 0 := by
      rw [List.countP_eq_zero]
      intro res hres
      obtain ⟨q, hq, rfl⟩ := List.mem_map.mp hres
      simp [csv_resource, xlsx_resource]
    simp [h0]
  · intro k hk
    have hcnt : (ds.map Prod.fst).count k = 1 := List.count_eq_one_of_mem hkeys hk
    constructor
    · rw [List.countP_cons, List.countP_map]
      have h1 : ((fun res => res.schema == some k) ∘
          fun (q : String × List Col) => csv_resource q.1) = fun q => q.1 == k := by
        funext q
        rfl
      have hx : (xlsx_resource.schema == some k) = false := rfl
      rw [h1, countP_fst_eq_count, hcnt, hx]
      simp
    · rw [countP_fst_eq_count, hks]
      exact hcnt

/-- C3 witness: the synthetic `"15min"` run has exactly one xlsx descriptor,
one `"15min"` CSV resource descriptor and one `"15min"` schema entry. -/
theorem make_json_resources_schemas_unique_witness :
    (resourcesOf (make_json id test_data_sets test_info_cols
        "1.0.0" "initial" test_headers)).countP
      (fun res => res == xlsx_resource) = 1 ∧
    (resourcesOf (make_json id test_data_sets test_info_cols
        "1.0.0" "initial" test_headers)).countP
      (fun res => res.schema == some "15min") = 1 ∧
    (schemasOf (make_json id test_data_sets test_info_cols
        "1.0.0" "initial" test_headers)).countP
      (fun en => en.1 == "15min") = 1 := by
  have h := make_json_resources_schemas_unique id test_data_sets test_info_cols
    "1.0.0" "initial" test_headers _ (by decide) rfl
  exact ⟨h.1, (h.2 "15min" (by decide)).1, (h.2 "15min" (by decide)).2⟩

/-- C4: for every input and every iteration order of the deduplicating `set`,
the `sources` list of a successful run contains no two identical entries. -/
theorem make_json_sources_nodup
    (shuffle : List SourceEntry → List SourceEntry)
    (hperm : ∀ l, (shuffle l).Perm l)
    (ds : List (String × List Col)) (info_cols : PyDict)
    (version changes : String) (headers : List String) (r : MakeJsonResult)
    (hok : make_json shuffle ds info_cols version changes headers = .ok r) :
    r.doc.sources.Nodup := by
  obtain ⟨rs, ss, schs, hloop, hne, rfl⟩ := make_json_ok_inv _ _ _ _ _ _ _ hok
  exact ((hperm ss.dedup).symm).nodup (List.nodup_dedup ss)

/-- C4 witness: the synthetic run's `sources` list has no duplicates. -/
theorem make_json_sources_nodup_witness :
    (sourcesOf (make_json id test_data_sets test_info_cols
      "1.0.0" "initial" test_headers)).Nodup := by
  have h := make_json_sources_nodup id (fun l => List.Perm.refl l) test_data_sets
    test_info_cols "1.0.0" "initial" test_headers _ rfl
  exact h

/-- C6 counterexample: a successful concrete run of `make_json` returns
`None`; the assembled document is not returned to the caller. -/
theorem make_json_returns_none_counterexample :
    (make_json id test_data_sets test_info_cols "1.0.0" "initial" test_headers).isOk
      = true ∧
    returnedOf (make_json id test_data_sets test_info_cols "1.0.0" "initial" test_headers)
      = none :=
  ⟨rfl, rfl⟩

/-- C6 amended: every successful `assemble`/`make_json` call writes the
assembled document to the fixed path `datapackage.json` and returns `None`
to its caller. -/
theorem make_json_writes_and_returns_none
    (shuffle : List SourceEntry → List SourceEntry)
    (ds : List (String × List Col)) (info_cols : PyDict)
    (version changes : String) (headers : List String) (r : MakeJsonResult)
    (hok : make_json shuffle ds info_cols version changes headers = .ok r) :
    r.fileName = "datapackage.json" ∧ r.returned = none := by
  obtain ⟨rs, ss, schs, hloop, hne, rfl⟩ := make_json_ok_inv _ _ _ _ _ _ _ hok
  exact ⟨rfl, rfl⟩

/-- C6 witness: the synthetic run writes to `datapackage.json` and returns
`None`. -/
theorem make_json_writes_and_returns_none_witness :
    fileNameOf (make_json id test_data_sets test_info_cols "1.0.0" "initial" test_headers)
      = some "datapackage.json" ∧
    returnedOf (make_json id test_data_sets test_info_cols "1.0.0" "initial" test_headers)
      = none := by
  have h := make_json_writes_and_returns_none id test_data_sets test_info_cols
    "1.0.0" "initial" test_headers _ rfl
  exact ⟨congrArg some h.1, h.2⟩

/-- C7: two runs on identical inputs differing only in the `set` iteration
order fail identically or produce documents that agree on the header, the
resources, the schemas, the written path and the returned value, with the
`sources` lists permutations of each other. -/
theorem make_json_deterministic_up_to_sources_order
    (shuffle1 shuffle2 : List SourceEntry → List SourceEntry)
    (h1 : ∀ l, (shuffle1 l).Perm l) (h2 : ∀ l, (shuffle2 l).Perm l)
    (ds : List (String × List Col)) (info_cols : PyDict)
    (version changes : String) (headers : List String) :
    (∀ e, make_json shuffle1 ds info_cols version changes headers = .error e ↔
          make_json shuffle2 ds info_cols version changes headers = .error e) ∧
    (∀ r1 r2, make_json shuffle1 ds info_cols version changes headers = .ok r1 →
      make_json shuffle2 ds info_cols version changes headers = .ok r2 →
      r1.fileName = r2.fileName ∧ r1.returned = r2.returned ∧
      r1.doc.head = r2.doc.head ∧ r1.doc.resources = r2.doc.resources ∧
      r1.doc.schemas = r2.doc.schemas ∧ r1.doc.sources.Perm r2.doc.sources) := by
  constructor
  · intro e
    unfold make_json
    rcases hl : make_json_loop headers info_cols ds with e' | ⟨rs, ss, schs⟩
    · simp
    · rcases ss with _ | ⟨s0, ss'⟩ <;> simp [dedup_sources]
  · intro r1 r2 hok1 hok2
    obtain ⟨rs, ss, schs, hloop, hne, rfl⟩ := make_json_ok_inv _ _ _ _ _ _ _ hok1
    obtain ⟨rs2, ss2, schs2, hloop2, hne2, rfl⟩ := make_json_ok_inv _ _ _ _ _ _ _ hok2
    rw [hloop] at hloop2
    obtain ⟨rfl, rfl, rfl⟩ := Prod.mk.injEq .. ▸ Prod.mk.injEq .. ▸ Except.ok.injEq .. ▸ hloop2
    exact ⟨rfl, rfl, rfl, rfl, rfl, (h1 ss.dedup).trans (h2 ss.dedup).symm⟩

/-- C7 witness: running the synthetic input with two different set orders
(identity and reversal) agrees on schemas and resources, with permuted
sources. -/
theorem make_json_deterministic_up_to_sources_order_witness :
    schemasOf (make_json id test_data_sets test_info_cols "1.0.0" "initial" test_headers) =
      schemasOf (make_json List.reverse test_data_sets test_info_cols "1.0.0" "initial" test_headers) ∧
    resourcesOf (make_json id test_data_sets test_info_cols "1.0.0" "initial" test_headers) =
      resourcesOf (make_json List.reverse test_data_sets test_info_cols "1.0.0" "initial" test_headers) ∧
    (sourcesOf (make_json id test_data_sets test_info_cols "1.0.0" "initial" test_headers)).Perm
      (sourcesOf (make_json List.reverse test_data_sets test_info_cols "1.0.0" "initial" test_headers)) := by
  have h := (make_json_deterministic_up_to_sources_order id List.reverse
    (fun l => List.Perm.refl l) (fun l => List.reverse_perm l) test_data_sets
    test_info_cols "1.0.0" "initial" test_headers).2 _ _ rfl rfl
  exact ⟨h.2.2.2.2.1, h.2.2.2.1, h.2.2.2.2.2⟩

/-- C10: when the input yields no data column at all (empty collection or
every column an info column), `make_json` raises `TypeError` in the source
deduplication step instead of producing a document with empty sources. -/
theorem make_json_no_data_columns_type_error
    (shuffle : List SourceEntry → List SourceEntry)
    (ds : List (String × List Col)) (info_cols : PyDict)
    (version changes : String) (headers : List String) (u cet m : String)
    (hu : pyGet info_cols "utc" = some u)
    (hc : pyGet info_cols "cet" = some cet)
    (hm : pyGet info_cols "marker" = some m)
    (hall : ∀ p ∈ ds, ∀ col ∈ p.2,
      (List.head? col).any (fun c0 => decide (c0 ∈ infoValsOf info_cols)) = true) :
    make_json shuffle ds info_cols version changes headers = .error .typeError := by
  obtain ⟨schs, hloop⟩ := make_json_loop_all_info headers info_cols ds u cet m hu hc hm hall
  unfold make_json
  simp only [hloop, ok_bind]
  rfl

/-- C10 witness: an all-info single-column table and the empty dataset
collection both end in `TypeError` during source deduplication. -/
theorem make_json_no_data_columns_type_error_witness :
    make_json id [("15min", [test_col_info])] test_info_cols "1.0.0" "initial" test_headers =
      .error .typeError ∧
    make_json id [] test_info_cols "1.0.0" "initial" test_headers =
      .error .typeError := by
  constructor
  · exact make_json_no_data_columns_type_error id _ test_info_cols "1.0.0" "initial"
      test_headers "utc_timestamp" "cet_timestamp" "interpolated" rfl rfl rfl (by decide)
  · exact make_json_no_data_columns_type_error id [] test_info_cols "1.0.0" "initial"
      test_headers "utc_timestamp" "cet_timestamp" "interpolated" rfl rfl rfl (by decide)

/-- C5: a column whose first-level header value is an info-column value is
skipped (it contributes neither a field-schema entry nor a source entry, and
the whole run is unchanged by its presence), while every other column yields
entries built from the record pairing each header level name with that
column's header value at that level. -/
theorem make_json_info_columns_skipped
    (headers : List String) (info_cols : PyDict) (c0 : String) (ct : List String)
    (rest : List Col) :
    (c0 ∈ infoValsOf info_cols →
      processCols headers (infoValsOf info_cols) ((c0 :: ct) :: rest) =
        processCols headers (infoValsOf info_cols) rest ∧
      ∀ shuffle res_key ds version changes,
        make_json shuffle ((res_key, (c0 :: ct) :: rest) :: ds) info_cols
            version changes headers =
          make_json shuffle ((res_key, rest) :: ds) info_cols
            version changes headers) ∧
    (c0 ∉ infoValsOf info_cols →
      ∀ fld src fs ss,
        processColumn headers (c0 :: ct) = .ok (fld, src) →
        processCols headers (infoValsOf info_cols) rest = .ok (fs, ss) →
        processCols headers (infoValsOf info_cols) ((c0 :: ct) :: rest) =
          .ok (fld :: fs, src :: ss) ∧
        ∃ p w rc rd tc td hh ff d,
          pyGet (headers.zip (c0 :: ct)) "project" = some p ∧
          pyGet websites p = some w ∧
          pyGet (headers.zip (c0 :: ct)) "region" = some rc ∧
          pyGet regions rc = some rd ∧
          pyGet (headers.zip (c0 :: ct)) "type" = some tc ∧
          pyGet types tc = some td ∧
          pyGet (headers.zip (c0 :: ct)) "household" = some hh ∧
          pyGet (headers.zip (c0 :: ct)) "feed" = some ff ∧
          (pyGet descriptions ff = some d ∨
            (pyGet descriptions ff = none ∧ d = "Energy in kWh")) ∧
          src = { project := p, web := w, type := td } ∧
          fld = { name := hh ++ "_" ++ ff, description := d,
                  type := "number (float)", format := none,
                  opsd_contentfilter := false,
                  source := some { project := p, web := w, type := td },
                  opsd_properties :=
                    some { region := rd, household := hh, feed := ff } }) := by
  constructor
  · intro hin
    have hskip : processCols headers (infoValsOf info_cols) ((c0 :: ct) :: rest) =
        processCols headers (infoValsOf info_cols) rest := by
      simp only [processCols]
      rw [if_pos hin]
    refine ⟨hskip, ?_⟩
    intro shuffle res_key ds version changes
    unfold make_json make_json_loop
    rw [hskip]
  · intro hni fld src fs ss hpc hrest
    constructor
    · simp only [processCols]
      rw [if_neg hni]
      simp only [hpc, hrest, ok_bind]
    · exact processColumn_ok_inv _ _ _ _ hpc

/-- C5 witness: the synthetic info column is skipped (also at the whole-run
level), and the photovoltaic data column produces entries drawn from its
header record. -/
theorem make_json_info_columns_skipped_witness :
    processCols test_headers (infoValsOf test_info_cols) [test_col_info, test_col_pv] =
      processCols test_headers (infoValsOf test_info_cols) [test_col_pv] ∧
    make_json id [("15min", [test_col_info, test_col_pv])] test_info_cols
        "1.0.0" "initial" test_headers =
      make_json id [("15min", [test_col_pv])] test_info_cols
        "1.0.0" "initial" test_headers ∧
    ∃ fld src, processColumn test_headers test_col_pv = .ok (fld, src) ∧
      ∃ hh ff, pyGet (test_headers.zip test_col_pv) "household" = some hh ∧
        pyGet (test_headers.zip test_col_pv) "feed" = some ff ∧
        fld.name = hh ++ "_" ++ ff := by
  have hskip := (make_json_info_columns_skipped test_headers test_info_cols
    "utc_timestamp" ["", "", "", "", ""] [test_col_pv]).1 (by decide)
  have hdata := (make_json_info_columns_skipped test_headers test_info_cols
    "DE_konstanz" (test_col_pv.tail) []).2 (by decide) _ _ _ _ rfl rfl
  obtain ⟨p, w, rc, rd, tc, td, hh, ff, d, hp, hw, hrc, hrd, htc, htd, hhh, hff,
    hd, hsrc, hfld⟩ := hdata.2
  exact ⟨hskip.1, hskip.2 id "15min" [] "1.0.0" "initial", _, _, rfl,
    hh, ff, hhh, hff, by rw [hfld]⟩

/-- C8: within each resolution key's schema, the generated data fields (the
fields after the three fixed info fields) correspond one-to-one and in order
to the non-info columns of that resolution's input table. -/
theorem make_json_fields_preserve_column_order
    (shuffle : List SourceEntry → List SourceEntry)
    (ds : List (String × List Col)) (info_cols : PyDict)
    (version changes : String) (headers : List String) (r : MakeJsonResult)
    (hok : make_json shuffle ds info_cols version changes headers = .ok r) :
    ∀ k cols, (k, cols) ∈ ds → ∃ sch, (k, sch) ∈ r.doc.schemas ∧
      List.Forall₂ (fun (fld : Field) c =>
          ∃ hh ff, pyGet (headers.zip c) "household" = some hh ∧
            pyGet (headers.zip c) "feed" = some ff ∧ fld.name = hh ++ "_" ++ ff)
        (sch.fields.drop 3)
        (cols.filter (fun c => !(isInfoCol (infoValsOf info_cols) c))) := by
  intro k cols hmem
  obtain ⟨rs, ss, schs, hloop, hne, rfl⟩ := make_json_ok_inv _ _ _ _ _ _ _ hok
  obtain ⟨_, _, hmem', _⟩ := make_json_loop_ok_inv _ _ _ _ _ _ hloop
  obtain ⟨fs, ss', hpc, hsub, u, cet, m, hu, hc, hm, hin⟩ := hmem' k cols hmem
  refine ⟨_, hin, ?_⟩
  show List.Forall₂ _ fs _
  refine (processCols_forall2 _ _ _ _ _ hpc).imp ?_
  intro fld c hr
  obtain ⟨src, hpcc⟩ := hr
  obtain ⟨p, w, rc, rd, tc, td, hh, ff, d, _, _, _, _, _, _, hhh, hff, _, _, rfl⟩ :=
    processColumn_ok_inv _ _ _ _ hpcc
  exact ⟨hh, ff, hhh, hff, rfl⟩

/-- C8 witness: in the synthetic run, the `"15min"` schema's data fields
correspond in order to the non-info columns of the input table. -/
theorem make_json_fields_preserve_column_order_witness :
    ∃ sch, ("15min", sch) ∈
      schemasOf (make_json id test_data_sets test_info_cols "1.0.0" "initial" test_headers) ∧
    List.Forall₂ (fun (fld : Field) c =>
        ∃ hh ff, pyGet (test_headers.zip c) "household" = some hh ∧
          pyGet (test_headers.zip c) "feed" = some ff ∧ fld.name = hh ++ "_" ++ ff)
      (sch.fields.drop 3)
      ([test_col_info, test_col_pv].filter
        (fun c => !(isInfoCol (infoValsOf test_info_cols) c))) := by
  have h := make_json_fields_preserve_column_order id test_data_sets test_info_cols
    "1.0.0" "initial" test_headers _ rfl "15min" [test_col_info, test_col_pv]
    (List.mem_cons_self ..)
  exact h

/-- C9: every schema of a successful run starts with exactly the three fixed
info fields taken from `info_cols` — a UTC datetime field, a CET datetime
field and a string marker field, in that order — and they precede every
generated data field (all of which have the numeric type marker). -/
theorem make_json_schema_fixed_info_fields_first
    (shuffle : List SourceEntry → List SourceEntry)
    (ds : List (String × List Col)) (info_cols : PyDict)
    (version changes : String) (headers : List String) (r : MakeJsonResult)
    (hok : make_json shuffle ds info_cols version changes headers = .ok r) :
    ∀ k sch, (k, sch) ∈ r.doc.schemas →
      ∃ u cet m rest, pyGet info_cols "utc" = some u ∧
        pyGet info_cols "cet" = some cet ∧ pyGet info_cols "marker" = some m ∧
        sch.fields = utc_field u :: cet_field cet :: marker_field m :: rest ∧
        (utc_field u).type = "datetime" ∧ (cet_field cet).type = "datetime" ∧
        (marker_field m).type = "string" ∧
        ∀ fld ∈ rest, fld.type = "number (float)" := by
  intro k sch hmem
  obtain ⟨rs, ss, schs, hloop, hne, rfl⟩ := make_json_ok_inv _ _ _ _ _ _ _ hok
  obtain ⟨_, _, _, hschs⟩ := make_json_loop_ok_inv _ _ _ _ _ _ hloop
  obtain ⟨cols, fs, ss', hin, hpc, u, cet, m, hu, hc, hm, rfl⟩ := hschs k sch hmem
  refine ⟨u, cet, m, fs, hu, hc, hm, rfl, rfl, rfl, rfl, ?_⟩
  intro fld hf
  obtain ⟨c, src, hcmem, hpcc⟩ := processCols_mem_left _ _ _ _ _ hpc fld hf
  obtain ⟨p, w, rc, rd, tc, td, hh, ff, d, _, _, _, _, _, _, _, _, _, _, rfl⟩ :=
    processColumn_ok_inv _ _ _ _ hpcc
  rfl

/-- C9 witness: the synthetic run's `"15min"` schema starts with the UTC,
CET and marker fields named by `test_info_cols`, followed only by numeric
data fields. -/
theorem make_json_schema_fixed_info_fields_first_witness :
    ∃ sch, ("15min", sch) ∈
      schemasOf (make_json id test_data_sets test_info_cols "1.0.0" "initial" test_headers) ∧
    ∃ u cet m rest, pyGet test_info_cols "utc" = some u ∧
      pyGet test_info_cols "cet" = some cet ∧ pyGet test_info_cols "marker" = some m ∧
      sch.fields = utc_field u :: cet_field cet :: marker_field m :: rest ∧
      (utc_field u).type = "datetime" ∧ (cet_field cet).type = "datetime" ∧
      (marker_field m).type = "string" ∧
      ∀ fld ∈ rest, fld.type = "number (float)" := by
  have h := make_json_schema_fixed_info_fields_first id test_data_sets test_info_cols
    "1.0.0" "initial" test_headers _ rfl "15min" _ (List.mem_cons_self ..)
  exact ⟨_, List.mem_cons_self .., h⟩

end HouseholdData
